import Mathlib

/-!
Verification of the packer-plugin-amazon sources against their
natural-language specification.

The Go sources embedded here (shallowly) are:
  * `common/ami_config.go` — `AMIConfig.Prepare`, `prepareRegions`,
    `ValidateKmsKey`, `stringInSlice`;
  * `common/state.go` — `AWSPollingConfig.LogEnvOverrideWarnings`;
  * `post-processor/import/post-processor.go` — the import
    post-processor `Configure` validation and the `PostProcess`
    pipeline, and the ebsvolume `Builder.Run` result assembly;
  * `builder/chroot/step_manual_mount_command.go` —
    `StepManualMountCommand.Run` / `Cleanup` / `CleanupFunc`.

External collaborators (the AWS SDK, the packer SDK template engine,
the Go standard library) are modelled as explicit parameters: the
embedding takes their results as inputs rather than re-implementing
them.  Error values are modelled as the strings `fmt.Errorf` would
produce (transliterated without quote characters); only their
presence, identity and ordering are used by the theorems.
-/

set_option maxRecDepth 8192

namespace PackerAmazon

/-! ## A small regular-expression matcher

`common/ami_config.go` validates KMS keys with Go's `regexp` package.
All six patterns used there are anchored on both sides (`^ … $`), so
`MatchString` holds exactly when the whole string matches the body of
the pattern.  We give those bodies semantics with a standard
Brzozowski-derivative matcher over character classes. -/

inductive Regex where
  | emp : Regex
  | eps : Regex
  | cls : (Char → Bool) → Regex
  | cat : Regex → Regex → Regex
  | alt : Regex → Regex → Regex
  | star : Regex → Regex

/-- Does the regex accept the empty string? -/
def Regex.nullable : Regex → Bool
  | .emp => false
  | .eps => true
  | .cls _ => false
  | .cat r1 r2 => r1.nullable && r2.nullable
  | .alt r1 r2 => r1.nullable || r2.nullable
  | .star _ => true

/-- Concatenation, simplifying the absorbing/neutral elements. -/
def Regex.scat : Regex → Regex → Regex
  | .emp, _ => .emp
  | _, .emp => .emp
  | .eps, r => r
  | r, .eps => r
  | r1, r2 => .cat r1 r2

/-- Alternation, simplifying the neutral element. -/
def Regex.salt : Regex → Regex → Regex
  | .emp, r => r
  | r, .emp => r
  | r1, r2 => .alt r1 r2

/-- Brzozowski derivative with respect to one character. -/
def Regex.deriv : Regex → Char → Regex
  | .emp, _ => .emp
  | .eps, _ => .emp
  | .cls p, c => if p c then .eps else .emp
  | .cat r1 r2, c =>
      if r1.nullable then Regex.salt (Regex.scat (r1.deriv c) r2) (r2.deriv c)
      else Regex.scat (r1.deriv c) r2
  | .alt r1 r2, c => Regex.salt (r1.deriv c) (r2.deriv c)
  | .star r, c => Regex.scat (r.deriv c) (.star r)

/-- Whole-string match (the `^ … $` anchored semantics of the Go
patterns in `ValidateKmsKey`). -/
def Regex.rmatch (r : Regex) (s : String) : Bool :=
  (s.data.foldl Regex.deriv r).nullable

/-- A single literal character. -/
def rchar (c : Char) : Regex := .cls (fun d => d == c)

/-- A literal string. -/
def rstr (s : String) : Regex :=
  s.data.foldr (fun c r => .cat (rchar c) r) .eps

/-- `r+` -/
def rplus (r : Regex) : Regex := .cat r (.star r)

/-- `r?` -/
def ropt (r : Regex) : Regex := .alt .eps r

/-- `r{n}` -/
def rrep (r : Regex) : Nat → Regex
  | 0 => .eps
  | n + 1 => .cat r (rrep r n)

/-! Character classes used by the patterns of `ValidateKmsKey`. -/

/-- Boolean order on characters (by code point). -/
def charLe (a b : Char) : Bool := Nat.ble a.toNat b.toNat

/-- `[a-f0-9]` -/
def hexDigit (c : Char) : Bool :=
  (charLe '0' c && charLe c '9') || (charLe 'a' c && charLe c 'f')

/-- `[a-f0-9-]` -/
def hexDash (c : Char) : Bool := hexDigit c || c == '-'

/-- `[a-z]` -/
def lowerAlpha (c : Char) : Bool := charLe 'a' c && charLe c 'z'

/-- `\d` -/
def decDigit (c : Char) : Bool := charLe '0' c && charLe c '9'

/-- `[a-zA-Z0-9:/_-]` -/
def aliasChar (c : Char) : Bool :=
  (charLe 'a' c && charLe c 'z') || (charLe 'A' c && charLe c 'Z') ||
  (charLe '0' c && charLe c '9') ||
  c == ':' || c == '/' || c == '_' || c == '-'

/-! The six pattern bodies of `ValidateKmsKey`
(`common/ami_config.go`, lines 374–409). -/

/-- `[a-f0-9]+[a-f0-9-]+` (single-region key ids). -/
def kmsKeyIdPattern : Regex := .cat (rplus (.cls hexDigit)) (rplus (.cls hexDash))

/-- `mrk-[a-f0-9]+[a-f0-9-]+` (multi-region key ids). -/
def mrkKeyIdPattern : Regex := .cat (rstr "mrk-") kmsKeyIdPattern

/-- `alias/[a-zA-Z0-9:/_-]+` -/
def aliasPattern : Regex := .cat (rstr "alias/") (rplus (.cls aliasChar))

/-- `[a-z]{2}-(gov-)?[a-z]+-\d{1}` (the optional region part of a KMS ARN). -/
def kmsArnRegionPattern : Regex :=
  .cat (rrep (.cls lowerAlpha) 2)
    (.cat (rchar '-')
      (.cat (ropt (rstr "gov-"))
        (.cat (rplus (.cls lowerAlpha))
          (.cat (rchar '-') (rrep (.cls decDigit) 1)))))

/-- `arn:aws(-[a-z]{2}(-gov)?)?:kms:([a-z]{2}-(gov-)?[a-z]+-\d{1})?:(\d{12}):` -/
def kmsArnStartPattern : Regex :=
  .cat (rstr "arn:aws")
    (.cat (ropt (.cat (rchar '-') (.cat (rrep (.cls lowerAlpha) 2) (ropt (rstr "-gov")))))
      (.cat (rstr ":kms:")
        (.cat (ropt kmsArnRegionPattern)
          (.cat (rchar ':')
            (.cat (rrep (.cls decDigit) 12) (rchar ':'))))))

/-- `ValidateKmsKey` from `common/ami_config.go`: accepts a bare key id,
a multi-region key id, an alias, or a full KMS ARN carrying one of
those three. The six `if` checks mirror the source order. -/
def ValidateKmsKey (kmsKey : String) : Bool :=
  if (kmsKeyIdPattern).rmatch kmsKey then true
  else if (mrkKeyIdPattern).rmatch kmsKey then true
  else if (aliasPattern).rmatch kmsKey then true
  else if (Regex.cat kmsArnStartPattern (.cat (rstr "key/") kmsKeyIdPattern)).rmatch kmsKey then true
  else if (Regex.cat kmsArnStartPattern (.cat (rstr "key/") mrkKeyIdPattern)).rmatch kmsKey then true
  else if (Regex.cat kmsArnStartPattern aliasPattern).rmatch kmsKey then true
  else false

/-! ## `common/ami_config.go` — `AMIConfig` and its `Prepare` validation -/

/-- `config.Trilean` from the packer SDK: a tri-state boolean. -/
inductive Trilean where
  | unset : Trilean
  | yes : Trilean
  | no : Trilean
deriving DecidableEq

/-- `Trilean.True()` from the packer SDK. -/
def Trilean.isTrue : Trilean → Bool
  | .yes => true
  | _ => false

/-- `DeregistrationProtectionOptions` from `common/ami_config.go`. -/
structure DeregistrationProtectionOptions where
  Enabled : Bool
  WithCooldown : Bool
deriving DecidableEq

/-- The fields of `AMIConfig` (with `SnapshotUsers` squashed in from
`SnapshotConfig`) that `AMIConfig.Prepare` reads or writes.  Go maps
(`region_kms_key_ids`) are modelled as association lists; iteration
order over a Go map is unspecified, here it is the list order.  The
repeatable `tag`/`snapshot_tag` blocks are omitted: the SDK `CopyOn`
calls that merge them never return errors and `Prepare` does not read
the merged maps. -/
structure AMIConfig where
  AMIName : String
  AMIUsers : List String
  AMIOrgArns : List String
  AMIOuArns : List String
  AMIRegions : List String
  AMIRegionKMSKeyIDs : List (String × String)
  AMIKmsKeyId : String
  AMIEncryptBootVolume : Trilean
  SnapshotUsers : List String
  AMIIMDSSupport : String
  DeprecationTime : String
  DeregistrationProtection : DeregistrationProtectionOptions
deriving DecidableEq

/-- `AccessConfig`: only the `RawRegion` field is read by
`AMIConfig.Prepare`/`prepareRegions`.  The Go parameter is a pointer;
`Option` models a possibly-nil one. -/
structure AccessConfig where
  RawRegion : String
deriving DecidableEq

/-- `stringInSlice` from `common/ami_config.go`. -/
def stringInSlice (s : List String) (searchstr : String) : Bool :=
  s.any (fun item => item == searchstr)

/-- Modelled from the spec: the character set accepted by the AMI-name
validation — alphanumeric characters, parentheses, square brackets,
spaces, periods, slashes, dashes, single quotes, at-signs, and
underscores (`templateCleanAMIName` lives in
`builder/common/template_funcs.go`, which is not among the given
sources; the spec and the error message in `Prepare` list this set). -/
def allowedAMINameChar (c : Char) : Bool :=
  c.isAlphanum || c == '(' || c == ')' || c == '[' || c == ']' ||
  c == ' ' || c == '.' || c == '/' || c == '-' || c == Char.ofNat 39 ||
  c == '@' || c == '_'

/-- One character of `templateCleanAMIName`: disallowed characters are
replaced by a dash. -/
def cleanAMINameChar (c : Char) : Char :=
  if allowedAMINameChar c then c else '-'

/-- Modelled from the spec: `templateCleanAMIName` (from
`builder/common/template_funcs.go`, not among the given sources)
replaces every character outside `allowedAMINameChar` with a dash.
`Prepare` only compares its result with the input, so only the fixed
points of this function matter to the claims. -/
def templateCleanAMIName (s : String) : String :=
  String.mk (s.data.map cleanAMINameChar)

/-- The error text of `prepareRegions` for a region missing from
`region_kms_key_ids`. -/
def regionNotInKmsErr (region : String) : String :=
  "Region " ++ region ++ " is in ami_regions but not in region_kms_key_ids"

/-- The error text of `Prepare` for a `region_kms_key_ids` key missing
from `ami_regions`. -/
def regionNotInAmiRegionsErr (region : String) : String :=
  "Region " ++ region ++ " is in region_kms_key_ids but not in ami_regions"

def amiNameRequiredErr : String := "ami_name must be specified"

def amiNameLengthErr : String :=
  "ami_name must be between 3 and 128 characters long"

def amiNameCharsErr : String :=
  "AMIName should only contain alphanumeric characters, parentheses, square brackets, spaces, periods, slashes, dashes, single quotes, at-signs, or underscores. You can use the clean_resource_name template filter to automatically clean your ami name."

def kmsKeyInvalidErr (k : String) : String := k ++ " is not a valid KMS Key Id."

def shareAmiDefaultKmsErr : String := "Cannot share AMI encrypted with default KMS key"

def shareAmiDefaultKmsOtherRegionsErr : String :=
  "Cannot share AMI encrypted with default KMS key for other regions"

def encryptBootRequiredErr : String :=
  "If you have set either region_kms_key_ids or kms_key_id, encrypt_boot must also be true."

def shareSnapshotDefaultKmsErr : String :=
  "Cannot share snapshot encrypted with default KMS key"

def invalidImdsSupportErr : String :=
  "The only valid imds_support values are v2.0 or the empty string"

def deprecateAtInvalidErr (t : String) : String :=
  "deprecate_at is not a valid time: " ++ t ++ ". Expect time format: YYYY-MM-DDTHH:MM:SSZ"

/-- Should the region be kept when copying into the new `ami_regions`
list?  Mirrors `(accessConfig != nil) && (region == accessConfig.RawRegion)`
guarding the `continue` in `prepareRegions`. -/
def keepRegion (raw : Option String) (region : String) : Bool :=
  match raw with
  | none => true
  | some rr => !(region == rr)

/-- The loop body of `AMIConfig.prepareRegions`
(`common/ami_config.go`, lines 343–366): walk `ami_regions`, skip
regions already seen, flag regions missing from a non-empty
`region_kms_key_ids`, and drop the region equal to the access config
region.  Returns (errors, surviving regions). -/
def prepareRegionsLoop (kms : List (String × String)) (raw : Option String) :
    List String → List String → List String × List String
  | [], _ => ([], [])
  | region :: rest, seen =>
    if seen.contains region then prepareRegionsLoop kms raw rest seen
    else
      let tail := prepareRegionsLoop kms raw rest (region :: seen)
      ((if kms.length > 0 && !(kms.any (fun kv => kv.1 == region)) then
          regionNotInKmsErr region :: tail.1
        else tail.1),
       (if keepRegion raw region then region :: tail.2 else tail.2))

/-- `AMIConfig.prepareRegions`: returns the validation errors and the
config with the deduplicated, session-region-free `AMIRegions`. -/
def AMIConfig.prepareRegions (c : AMIConfig) (accessConfig : Option AccessConfig) :
    List String × AMIConfig :=
  if c.AMIRegions.length > 0 then
    let res := prepareRegionsLoop c.AMIRegionKMSKeyIDs
      (accessConfig.map (fun a => a.RawRegion)) c.AMIRegions []
    (res.1, { c with AMIRegions := res.2 })
  else ([], c)

/-- The `kmsKeys` slice built in `Prepare` (lines 263–273):
`kms_key_id` if set, followed by the non-empty values of
`region_kms_key_ids`. -/
def kmsKeysOf (c : AMIConfig) : List String :=
  (if c.AMIKmsKeyId.length > 0 then [c.AMIKmsKeyId] else []) ++
  (if c.AMIRegionKMSKeyIDs.length > 0 then
     c.AMIRegionKMSKeyIDs.filterMap
       (fun kv => if kv.2.length > 0 then some kv.2 else none)
   else [])

/-- `Prepare`, lines 233–235: `ami_name` must be specified. -/
def amiNameRequiredCheck (c : AMIConfig) : List String :=
  if c.AMIName = "" then [amiNameRequiredErr] else []

/-- `Prepare`, lines 239–245: every key of `region_kms_key_ids` must
also be in `ami_regions`. -/
def kmsRegionsSubsetCheck (c : AMIConfig) : List String :=
  if c.AMIRegionKMSKeyIDs.length > 0 then
    c.AMIRegionKMSKeyIDs.filterMap (fun kv =>
      if stringInSlice c.AMIRegions kv.1 then none
      else some (regionNotInAmiRegionsErr kv.1))
  else []

/-- `Prepare`, lines 250–261: sharing an AMI encrypted with the
default KMS key is rejected. -/
def shareAmiCheck (c : AMIConfig) : List String :=
  if c.AMIUsers.length > 0 || c.AMIOrgArns.length > 0 || c.AMIOuArns.length > 0 then
    (if c.AMIKmsKeyId.length = 0 && c.AMIRegionKMSKeyIDs.length = 0 &&
        c.AMIEncryptBootVolume.isTrue then [shareAmiDefaultKmsErr] else []) ++
    (if c.AMIRegionKMSKeyIDs.length > 0 then
       c.AMIRegionKMSKeyIDs.filterMap (fun kv =>
         if kv.2.length = 0 then some shareAmiDefaultKmsOtherRegionsErr else none)
     else [])
  else []

/-- `Prepare`, lines 275–279: any configured KMS key requires
`encrypt_boot`. -/
def encryptBootCheck (c : AMIConfig) : List String :=
  if (kmsKeysOf c).length > 0 && !c.AMIEncryptBootVolume.isTrue then
    [encryptBootRequiredErr]
  else []

/-- `Prepare`, lines 280–284: every configured KMS key must pass
`ValidateKmsKey`. -/
def kmsKeyValidCheck (c : AMIConfig) : List String :=
  (kmsKeysOf c).filterMap (fun k =>
    if ValidateKmsKey k then none else some (kmsKeyInvalidErr k))

/-- `Prepare`, lines 286–298: sharing a snapshot encrypted with the
default KMS key is rejected. -/
def shareSnapshotCheck (c : AMIConfig) : List String :=
  if c.SnapshotUsers.length > 0 then
    (if c.AMIKmsKeyId.length = 0 && c.AMIRegionKMSKeyIDs.length = 0 &&
        c.AMIEncryptBootVolume.isTrue then [shareSnapshotDefaultKmsErr] else []) ++
    (if c.AMIRegionKMSKeyIDs.length > 0 then
       c.AMIRegionKMSKeyIDs.filterMap (fun kv =>
         if kv.2.length = 0 then some shareSnapshotDefaultKmsErr else none)
     else [])
  else []

/-- `Prepare`, lines 300–302: `ami_name` must be 3 to 128 characters
long. -/
def nameLengthCheck (c : AMIConfig) : List String :=
  if c.AMIName.length < 3 ∨ c.AMIName.length > 128 then [amiNameLengthErr] else []

/-- `Prepare`, lines 304–310: `ami_name` must only use the allowed
character set. -/
def nameCharsCheck (c : AMIConfig) : List String :=
  if c.AMIName = templateCleanAMIName c.AMIName then [] else [amiNameCharsErr]

/-- `Prepare`, lines 312–317: `imds_support` must be empty or `v2.0`. -/
def imdsCheck (c : AMIConfig) : List String :=
  if c.AMIIMDSSupport = "" ∨ c.AMIIMDSSupport = "v2.0" then [] else [invalidImdsSupportErr]

/-- `Prepare`, lines 319–325: `deprecate_at` must parse as RFC3339. -/
def deprecateCheck (c : AMIConfig) (rfc3339Ok : String → Bool) : List String :=
  if c.DeprecationTime = "" then []
  else if rfc3339Ok c.DeprecationTime then []
  else [deprecateAtInvalidErr c.DeprecationTime]

/-- `AMIConfig.Prepare` (`common/ami_config.go`, lines 227–336).
Returns the collected validation errors (in source order) and the
updated config.  `rfc3339Ok` stands for the Go standard library call
`time.Parse(time.RFC3339, ·)` succeeding; the two SDK `CopyOn` calls
at the top contribute no errors and are omitted (see `AMIConfig`). -/
def AMIConfig.Prepare (c : AMIConfig) (accessConfig : Option AccessConfig)
    (rfc3339Ok : String → Bool) : List String × AMIConfig :=
  let pr := c.prepareRegions accessConfig
  let c2 :=
    if pr.2.DeregistrationProtection.WithCooldown then
      { pr.2 with DeregistrationProtection :=
          { pr.2.DeregistrationProtection with Enabled := true } }
    else pr.2
  (amiNameRequiredCheck c ++ kmsRegionsSubsetCheck c ++ pr.1 ++
     shareAmiCheck c ++ encryptBootCheck c ++ kmsKeyValidCheck c ++
     shareSnapshotCheck c ++ nameLengthCheck c ++ nameCharsCheck c ++
     imdsCheck c ++ deprecateCheck c rfc3339Ok, c2)

/-- First-occurrence deduplication, with an accumulator of
already-seen elements (the `regionSet` of `prepareRegions`). -/
def dedupFirstAux : List String → List String → List String
  | [], _ => []
  | x :: xs, seen =>
    if seen.contains x then dedupFirstAux xs seen
    else x :: dedupFirstAux xs (x :: seen)

/-- First-occurrence deduplication of a list. -/
def dedupFirst (l : List String) : List String := dedupFirstAux l []

/-- The kms-membership error `prepareRegionsLoop` raises for one
region, if any. -/
def regionKmsErrOf (kms : List (String × String)) (region : String) : Option String :=
  if kms.length > 0 && !(kms.any (fun kv => kv.1 == region)) then
    some (regionNotInKmsErr region)
  else none

/-- A configuration whose only set field is `ami_name` — the inputs of
the AMI-name validation claim. -/
def cfgNamed (name : String) : AMIConfig where
  AMIName := name
  AMIUsers := []
  AMIOrgArns := []
  AMIOuArns := []
  AMIRegions := []
  AMIRegionKMSKeyIDs := []
  AMIKmsKeyId := ""
  AMIEncryptBootVolume := .unset
  SnapshotUsers := []
  AMIIMDSSupport := ""
  DeprecationTime := ""
  DeregistrationProtection := ⟨false, false⟩

/-- A 129-character name. -/
def name129 : String := String.mk (List.replicate 129 'a')

/-- A configuration exercising region deduplication, the session
region and the kms-key/region cross checks. -/
def cfgRegionsEx : AMIConfig :=
  { cfgNamed "foobar" with
      AMIRegions := ["us-west-2", "us-west-2", "us-east-1"]
      AMIRegionKMSKeyIDs := [("eu-west-1", "key1")] }

/-! ## `post-processor/import/post-processor.go` — configuration -/

/-- The `Config` of the import post-processor (the fields its own code
reads; the squashed `PackerConfig`/`AccessConfig` are external).  Go
maps (`tags`) are association lists, iterated in list order. -/
structure ImportConfig where
  S3Bucket : String
  S3Key : String
  S3Encryption : String
  S3EncryptionKey : String
  SkipClean : Bool
  Tags : List (String × String)
  Name : String
  Description : String
  Users : List String
  Groups : List String
  OrgArns : List String
  OuArns : List String
  Encrypt : Bool
  KMSKey : String
  AMIIMDSSupport : String
  LicenseType : String
  RoleName : String
  Format : String
  Architecture : String
  BootMode : String
  Platform : String
deriving DecidableEq

/-- Results of the external collaborators `Configure` consults:
`awscommon.IsValidBootMode` and `awscommon.AccessConfig.Prepare` (repo
code outside the given sources) and the SDK `interpolate.Validate` on
`s3_key_name`. -/
structure ConfigureExt where
  isValidBootModeErr : String → Option String
  s3KeyTemplateErr : Option String
  accessPrepareErrs : List String

/-- The defaulting block of `Configure` (lines 88–115): `format`
defaults to `ova`, `s3_key_name` to a timestamped name, `architecture`
to `x86_64`, and an empty `boot_mode` to `uefi` for arm64 and
`legacy-bios` otherwise. -/
def applyImportDefaults (c : ImportConfig) : ImportConfig :=
  let c := if c.Format = "" then { c with Format := "ova" } else c
  let c := if c.S3Key = "" then
      { c with S3Key := "packer-import-\x7b\x7btimestamp\x7d\x7d." ++ c.Format }
    else c
  let c := if c.Architecture = "" then { c with Architecture := "x86_64" } else c
  if c.BootMode = "" then
    { c with BootMode := if c.Architecture = "arm64" then "uefi" else "legacy-bios" }
  else c

def s3KeyTemplateErrMsg (e : String) : String :=
  "Error parsing s3_key_name template: " ++ e

def s3BucketRequiredErr : String := "s3_bucket_name must be set"

def invalidFormatErr (f : String) : String :=
  "invalid format " ++ f ++ ". Only ova, raw, vhd, vhdx, or vmdk are allowed"

def platformRequiredErr (p : String) : String :=
  "invalid platform " ++ p ++ ", platform must be set for uefi image imports"

def invalidPlatformErr (p : String) : String :=
  "invalid platform " ++ p ++ ". Only linux and windows are allowed"

def invalidS3EncryptionErr (s : String) : String :=
  "invalid s3 encryption format " ++ s ++ ". Only AES256 and aws:kms are allowed"

def invalidBootModeErr (b : String) : String :=
  "invalid boot mode " ++ b ++ ". Only uefi and legacy-bios are allowed"

def arm64BootModeErr (b : String) : String :=
  "invalid boot mode " ++ b ++ " for arm64 architecture"

def invalidImdsImportErr : String :=
  "The only valid imds_support values are v2.0 or the empty string"

/-- `Configure`, lines 103–115: a non-empty `boot_mode` is checked by
`awscommon.IsValidBootMode`; an empty one is defaulted, without
error. -/
def bootModeCheck (c0 : ImportConfig) (ext : ConfigureExt) : List String :=
  if c0.BootMode = "" then []
  else
    match ext.isValidBootModeErr c0.BootMode with
    | some e => [e]
    | none => []

/-- `Configure`, lines 118–121: `s3_key_name` must be a valid
template. -/
def s3KeyTemplateCheck (ext : ConfigureExt) : List String :=
  match ext.s3KeyTemplateErr with
  | some e => [s3KeyTemplateErrMsg e]
  | none => []

/-- `Configure`, lines 127–136: `s3_bucket_name` is required. -/
def s3BucketCheck (c : ImportConfig) : List String :=
  if c.S3Bucket = "" then [s3BucketRequiredErr] else []

/-- `Configure`, lines 138–143: `format` must be one of the five
allowed values. -/
def formatCheck (c : ImportConfig) : List String :=
  if c.Format = "ova" ∨ c.Format = "raw" ∨ c.Format = "vmdk" ∨
     c.Format = "vhd" ∨ c.Format = "vhdx" then []
  else [invalidFormatErr c.Format]

/-- `Configure`, lines 145–155: `platform` must be `windows` or
`linux`; an empty platform is only allowed for non-uefi boot modes. -/
def platformCheck (c : ImportConfig) : List String :=
  if c.Platform = "windows" ∨ c.Platform = "linux" then []
  else if c.Platform = "" then
    (if c.BootMode = "uefi" then [platformRequiredErr c.Platform] else [])
  else [invalidPlatformErr c.Platform]

/-- `Configure`, lines 156–159: `s3_encryption` must be empty,
`AES256` or `aws:kms`. -/
def s3EncryptionCheck (c : ImportConfig) : List String :=
  if c.S3Encryption = "" ∨ c.S3Encryption = "AES256" ∨ c.S3Encryption = "aws:kms"
  then [] else [invalidS3EncryptionErr c.S3Encryption]

/-- `Configure`, lines 161–164: the (defaulted) `boot_mode` must be
`legacy-bios` or `uefi`. -/
def bootModeEnumCheck (c : ImportConfig) : List String :=
  if c.BootMode = "legacy-bios" ∨ c.BootMode = "uefi" then []
  else [invalidBootModeErr c.BootMode]

/-- `Configure`, lines 166–169: arm64 requires the uefi boot mode. -/
def arm64Check (c : ImportConfig) : List String :=
  if c.Architecture = "arm64" ∧ ¬ c.BootMode = "uefi" then
    [arm64BootModeErr c.BootMode]
  else []

/-- `Configure`, lines 171–176: `imds_support` must be empty or
`v2.0`. -/
def imdsImportCheck (c : ImportConfig) : List String :=
  if c.AMIIMDSSupport = "" ∨ c.AMIIMDSSupport = "v2.0" then []
  else [invalidImdsImportErr]

/-- The validation part of `PostProcessor.Configure`
(`post-processor/import/post-processor.go`, lines 88–190, after the
SDK decode step): apply defaults, then collect every check's errors in
source order.  Returns the defaulted config and the error list (the
source wraps the list in a `MultiError` when non-empty). -/
def configureValidate (c0 : ImportConfig) (ext : ConfigureExt) :
    ImportConfig × List String :=
  let c := applyImportDefaults c0
  (c, bootModeCheck c0 ext ++ s3KeyTemplateCheck ext ++ ext.accessPrepareErrs ++
      s3BucketCheck c ++ formatCheck c ++ platformCheck c ++
      s3EncryptionCheck c ++ bootModeEnumCheck c ++ arm64Check c ++
      imdsImportCheck c)

/-- The spec's reading of when the import `Configure` validation
passes: every individual check succeeds on the defaulted
configuration. -/
def ConfigureChecksPass (c0 : ImportConfig) (ext : ConfigureExt) : Prop :=
  let c := applyImportDefaults c0
  (c0.BootMode ≠ "" → ext.isValidBootModeErr c0.BootMode = none) ∧
  ext.s3KeyTemplateErr = none ∧
  ext.accessPrepareErrs = [] ∧
  c.S3Bucket ≠ "" ∧
  (c.Format = "ova" ∨ c.Format = "raw" ∨ c.Format = "vmdk" ∨
   c.Format = "vhd" ∨ c.Format = "vhdx") ∧
  (c.Platform = "windows" ∨ c.Platform = "linux" ∨
   (c.Platform = "" ∧ c.BootMode ≠ "uefi")) ∧
  (c.S3Encryption = "" ∨ c.S3Encryption = "AES256" ∨ c.S3Encryption = "aws:kms") ∧
  (c.BootMode = "legacy-bios" ∨ c.BootMode = "uefi") ∧
  (c.Architecture = "arm64" → c.BootMode = "uefi") ∧
  (c.AMIIMDSSupport = "" ∨ c.AMIIMDSSupport = "v2.0")

/-- The spec's reading of when `AMIConfig.Prepare` passes: every
individual check succeeds.  (The session region plays no role: it only
filters the region list, never adds errors.) -/
def PrepareChecksPass (c : AMIConfig) (rfc3339Ok : String → Bool) : Prop :=
  c.AMIName ≠ "" ∧
  (∀ kv ∈ c.AMIRegionKMSKeyIDs, kv.1 ∈ c.AMIRegions) ∧
  (∀ r ∈ c.AMIRegions, c.AMIRegionKMSKeyIDs ≠ [] →
    ∃ kv ∈ c.AMIRegionKMSKeyIDs, kv.1 = r) ∧
  ((c.AMIUsers ≠ [] ∨ c.AMIOrgArns ≠ [] ∨ c.AMIOuArns ≠ []) →
    (¬ (c.AMIKmsKeyId = "" ∧ c.AMIRegionKMSKeyIDs = [] ∧
        c.AMIEncryptBootVolume.isTrue = true) ∧
     ∀ kv ∈ c.AMIRegionKMSKeyIDs, kv.2 ≠ "")) ∧
  (kmsKeysOf c ≠ [] → c.AMIEncryptBootVolume.isTrue = true) ∧
  (∀ k ∈ kmsKeysOf c, ValidateKmsKey k = true) ∧
  (c.SnapshotUsers ≠ [] →
    (¬ (c.AMIKmsKeyId = "" ∧ c.AMIRegionKMSKeyIDs = [] ∧
        c.AMIEncryptBootVolume.isTrue = true) ∧
     ∀ kv ∈ c.AMIRegionKMSKeyIDs, kv.2 ≠ "")) ∧
  (3 ≤ c.AMIName.length ∧ c.AMIName.length ≤ 128) ∧
  c.AMIName = templateCleanAMIName c.AMIName ∧
  (c.AMIIMDSSupport = "" ∨ c.AMIIMDSSupport = "v2.0") ∧
  (c.DeprecationTime = "" ∨ rfc3339Ok c.DeprecationTime = true)

/-- A configuration with an invalid `format` and an invalid
`platform`. -/
def cfgBadFmtPlat : ImportConfig where
  S3Bucket := "bucket"
  S3Key := ""
  S3Encryption := ""
  S3EncryptionKey := ""
  SkipClean := false
  Tags := []
  Name := ""
  Description := ""
  Users := []
  Groups := []
  OrgArns := []
  OuArns := []
  Encrypt := false
  KMSKey := ""
  AMIIMDSSupport := ""
  LicenseType := ""
  RoleName := ""
  Format := "qcow2"
  Architecture := ""
  BootMode := ""
  Platform := "osx"

/-- External results with no errors. -/
def extNone : ConfigureExt where
  isValidBootModeErr := fun _ => none
  s3KeyTemplateErr := none
  accessPrepareErrs := []

/-- A configuration with a too-short `ami_name` and an invalid
`kms_key_id`. -/
def cfgShortNameBadKms : AMIConfig :=
  { cfgNamed "ab" with
      AMIKmsKeyId := "not-a-key"
      AMIEncryptBootVolume := .yes }

/-! ## The attribute-modification map of `PostProcess` (lines 455–531) -/

/-- One `ec2.LaunchPermission` entry. -/
structure LaunchPermission where
  Group : Option String
  UserId : Option String
  OrganizationArn : Option String
  OrganizationalUnitArn : Option String
deriving DecidableEq

/-- The fields of `ec2.ModifyImageAttributeInput` the post-processor
fills (besides the `ImageId` set just before the call). -/
structure ModifyImageAttributeInput where
  Description : Option String
  UserGroups : List String
  UserIds : List String
  OrganizationArns : List String
  OrganizationalUnitArns : List String
  ImdsSupport : Option String
  LaunchPermissionAdd : List LaunchPermission
deriving DecidableEq

def emptyModifyInput : ModifyImageAttributeInput where
  Description := none
  UserGroups := []
  UserIds := []
  OrganizationArns := []
  OrganizationalUnitArns := []
  ImdsSupport := none
  LaunchPermissionAdd := []

/-- The `options` map built by `PostProcess` (lines 455–531): one
named modification request per non-empty/non-default config field, in
source order (a Go map holds them; the association list fixes its
iteration order). -/
def buildOptions (c : ImportConfig) : List (String × ModifyImageAttributeInput) :=
  (if c.Description ≠ "" then
    [("description", { emptyModifyInput with Description := some c.Description })]
   else []) ++
  (if c.Groups.length > 0 then
    [("groups", { emptyModifyInput with
        UserGroups := c.Groups
        LaunchPermissionAdd := c.Groups.map (fun g =>
          { Group := some g, UserId := none, OrganizationArn := none,
            OrganizationalUnitArn := none }) })]
   else []) ++
  (if c.Users.length > 0 then
    [("users", { emptyModifyInput with
        UserIds := c.Users
        LaunchPermissionAdd := c.Users.map (fun u =>
          { Group := none, UserId := some u, OrganizationArn := none,
            OrganizationalUnitArn := none }) })]
   else []) ++
  (if c.OrgArns.length > 0 then
    [("ami org arns", { emptyModifyInput with
        OrganizationArns := c.OrgArns
        LaunchPermissionAdd := c.OrgArns.map (fun u =>
          { Group := none, UserId := none, OrganizationArn := some u,
            OrganizationalUnitArn := none }) })]
   else []) ++
  (if c.OuArns.length > 0 then
    [("ami ou arns", { emptyModifyInput with
        OrganizationalUnitArns := c.OuArns
        LaunchPermissionAdd := c.OuArns.map (fun u =>
          { Group := none, UserId := none, OrganizationArn := none,
            OrganizationalUnitArn := some u }) })]
   else []) ++
  (if c.AMIIMDSSupport ≠ "" then
    [("ami imds support", { emptyModifyInput with
        ImdsSupport := some c.AMIIMDSSupport })]
   else [])

/-- A configuration whose only set attribute field is
`ami_users = [111111111111]`. -/
def cfgUsersOnly : ImportConfig :=
  { cfgBadFmtPlat with
      Format := "ova"
      Platform := "linux"
      Users := ["111111111111"] }

/-- The single modification request expected for `cfgUsersOnly`:
launch permission for user 111111111111 only. -/
def usersOnlyModifyInput : ModifyImageAttributeInput :=
  { emptyModifyInput with
      UserIds := ["111111111111"]
      LaunchPermissionAdd := [⟨none, some "111111111111", none, none⟩] }

/-! ## The `PostProcess` pipeline (lines 192–567)

The AWS calls are external; an `ImportEnv` carries their outcomes.
`postProcess` returns the trace of remote calls attempted (in order)
together with the Go function's `(artifact, error)` result, modelled
as an `Except`. -/

/-- One remote call `PostProcess` can attempt. -/
inductive Call where
  | upload : Call
  | importImage : Call
  | waitImport : Call
  | describeTasks : Call
  | copyImage : Call
  | waitAMI : Call
  | destroyAMIs : Call
  | describeImages : Call
  | createTags : Call
  | modifyAttr : String → Call
  | deleteObject : Call
deriving DecidableEq

/-- The fields of one `DescribeImportImageTasks` entry the code
reads. -/
structure ImportTaskInfo where
  status : String
  statusMessage : String
  imageId : String
deriving DecidableEq

/-- One image of a `DescribeImages` response: the snapshot ids of its
EBS block-device mappings. -/
structure ImageInfo where
  snapshotIds : List String
deriving DecidableEq

/-- The `awscommon.Artifact` the import post-processor returns: a
region-to-AMI map and the builder id. -/
structure ImportArtifact where
  amis : List (String × String)
  builderId : String
deriving DecidableEq

def importBuilderId : String := "packer.post-processor.amazon-import"

/-- Outcomes of the external calls, in the order `PostProcess` makes
them.  `Option String` fields are error-only results (`some e` is a
failure); `DescribeImportImageTasks` is called with the same task id
at both of its call sites, so one field serves both. -/
structure ImportEnv where
  sessionErr : Option String
  region : String
  renderedS3Key : Except String String
  artifactFiles : List String
  openErr : Option String
  uploadErr : Option String
  importImage : Except String String
  waitImport : Option String
  describeTasks : Except String ImportTaskInfo
  copyImage : Except String String
  waitAMI : Option String
  destroyErr : Option String
  describeImages : Except String (List ImageInfo)
  createTagsErr : Option String
  modifyAttrErr : String → Option String
  deleteObjectErr : Option String

/-- `strings.HasSuffix` from the Go standard library. -/
def strHasSuffix (s suffix : String) : Bool :=
  decide (suffix.data.length ≤ s.data.length) &&
    s.data.drop (s.data.length - suffix.data.length) == suffix.data

/-- Lines 216–228: the first artifact file ending in `.<format>`. -/
def findSourceFile (format : String) (files : List String) : Option String :=
  files.find? (fun path => strHasSuffix path (String.append "." format))

/-- The status message reported when the import waiter fails (lines
322–333): the task's message from `DescribeImportImageTasks`, or a
placeholder when that call itself fails. -/
def waiterStatusMessage (env : ImportEnv) : String :=
  match env.describeTasks with
  | .ok t => t.statusMessage
  | .error _ => "Error retrieving status message"

/-- The rename phase (lines 358–396): copy the imported image to the
configured name, wait until the copy is available, destroy the
intermediary, and continue with the copied id. -/
def renamePhase (cfg : ImportConfig) (env : ImportEnv) (createdami : String) :
    List Call × Except String String :=
  if cfg.Name = "" then ([], .ok createdami)
  else
    match env.copyImage with
    | .error e =>
      ([.copyImage], .error ("Error Copying AMI (" ++ createdami ++ "): " ++ e))
    | .ok newId =>
      match env.waitAMI with
      | some e =>
        ([.copyImage, .waitAMI],
         .error ("Error waiting for AMI (" ++ newId ++ "): " ++ e))
      | none =>
        match env.destroyErr with
        | some e =>
          ([.copyImage, .waitAMI, .destroyAMIs],
           .error ("Error deregistering existing AMI: " ++ e))
        | none => ([.copyImage, .waitAMI, .destroyAMIs], .ok newId)

/-- The tagging phase (lines 400–451): with tags configured, describe
the image, collect its snapshot ids and tag everything. -/
def tagPhase (cfg : ImportConfig) (env : ImportEnv) (createdami : String) :
    List Call × Except String Unit :=
  if cfg.Tags.length > 0 then
    match env.describeImages with
    | .error e =>
      ([.describeImages],
       .error ("Failed to retrieve details for AMI " ++ createdami ++ ": " ++ e))
    | .ok [] => ([.describeImages], .error ("AMI " ++ createdami ++ " has no images"))
    | .ok (img :: _) =>
      match env.createTagsErr with
      | some e =>
        ([.describeImages, .createTags],
         .error ("Failed to add tags to resources " ++
           String.intercalate " " (createdami :: img.snapshotIds) ++ ": " ++ e))
      | none => ([.describeImages, .createTags], .ok ())
  else ([], .ok ())

/-- The attribute-modification loop (lines 533–542) over the
`buildOptions` map: stops at the first failing
`ModifyImageAttribute`. -/
def modifyPhase (opts : List (String × ModifyImageAttributeInput))
    (f : String → Option String) : List Call × Except String Unit :=
  match opts with
  | [] => ([], .ok ())
  | (n, _) :: rest =>
    match f n with
    | some e => ([.modifyAttr n], .error ("Error modifying AMI attributes: " ++ e))
    | none =>
      let t := modifyPhase rest f
      (.modifyAttr n :: t.1, t.2)

/-- The source-cleanup phase (lines 554–564): delete the uploaded
object unless `skip_clean`. -/
def sourceCleanupPhase (skipClean : Bool) (bucket key : String)
    (deleteErr : Option String) : List Call × Except String Unit :=
  if skipClean then ([], .ok ())
  else
    match deleteErr with
    | some e =>
      ([.deleteObject],
       .error ("Failed to delete s3://" ++ bucket ++ "/" ++ key ++ ": " ++ e))
    | none => ([.deleteObject], .ok ())

/-- `PostProcessor.PostProcess` (lines 192–567): upload, start the
import, wait for it, then on completion rename / tag / modify
attributes / clean up the source object, each phase only after the
previous one's success. -/
def postProcess (cfg : ImportConfig) (env : ImportEnv) :
    List Call × Except String ImportArtifact :=
  match env.sessionErr with
  | some e => ([], .error e)
  | none =>
  match env.renderedS3Key with
  | .error e => ([], .error ("Error rendering s3_key_name template: " ++ e))
  | .ok s3key =>
  match findSourceFile cfg.Format env.artifactFiles with
  | none => ([], .error ("No " ++ cfg.Format ++ " image file found in artifact from builder"))
  | some source =>
  match env.openErr with
  | some e => ([], .error ("Failed to open " ++ source ++ ": " ++ e))
  | none =>
  match env.uploadErr with
  | some e => ([.upload], .error ("Failed to upload " ++ source ++ ": " ++ e))
  | none =>
  match env.importImage with
  | .error e =>
    ([.upload, .importImage],
     .error ("Failed to start import from s3://" ++ cfg.S3Bucket ++ "/" ++
       s3key ++ ": " ++ e))
  | .ok taskId =>
  match env.waitImport with
  | some e =>
    ([.upload, .importImage, .waitImport, .describeTasks],
     .error ("Import task " ++ taskId ++ " failed with status message: " ++
       waiterStatusMessage env ++ ", error: " ++ e))
  | none =>
  match env.describeTasks with
  | .error e =>
    ([.upload, .importImage, .waitImport, .describeTasks],
     .error ("Failed to find import task " ++ taskId ++ ": " ++ e))
  | .ok task =>
  if task.status ≠ "completed" then
    ([.upload, .importImage, .waitImport, .describeTasks],
     .error ("Import task " ++ taskId ++ " failed: " ++ task.statusMessage))
  else
    let pre : List Call := [.upload, .importImage, .waitImport, .describeTasks]
    let ren := renamePhase cfg env task.imageId
    match ren.2 with
    | .error e => (pre ++ ren.1, .error e)
    | .ok createdami =>
      let tg := tagPhase cfg env createdami
      match tg.2 with
      | .error e => (pre ++ ren.1 ++ tg.1, .error e)
      | .ok _ =>
        let md := modifyPhase (buildOptions cfg) env.modifyAttrErr
        match md.2 with
        | .error e => (pre ++ ren.1 ++ tg.1 ++ md.1, .error e)
        | .ok _ =>
          let cl := sourceCleanupPhase cfg.SkipClean cfg.S3Bucket s3key
            env.deleteObjectErr
          match cl.2 with
          | .error e => (pre ++ ren.1 ++ tg.1 ++ md.1 ++ cl.1, .error e)
          | .ok _ =>
            (pre ++ ren.1 ++ tg.1 ++ md.1 ++ cl.1,
             .ok { amis := [(env.region, createdami)], builderId := importBuilderId })

/-- Calls belonging to the rename phase. -/
def isRenameCall : Call → Bool
  | .copyImage => true
  | .waitAMI => true
  | .destroyAMIs => true
  | _ => false

/-- Calls belonging to the phases after the import wait (rename,
tagging, attribute modification, source-object deletion). -/
def isLaterPhaseCall : Call → Bool
  | .copyImage => true
  | .waitAMI => true
  | .destroyAMIs => true
  | .describeImages => true
  | .createTags => true
  | .modifyAttr _ => true
  | .deleteObject => true
  | _ => false

/-- An import configuration for the pipeline examples: rename, one
tag, source cleanup. -/
def cfgImportEx : ImportConfig :=
  { cfgUsersOnly with
      Name := "renamed-ami"
      Tags := [("Name", "test")]
      SkipClean := false }

/-- An environment in which every call succeeds. -/
def envHappy : ImportEnv where
  sessionErr := none
  region := "us-east-1"
  renderedS3Key := .ok "packer-import.ova"
  artifactFiles := ["build/output.ova"]
  openErr := none
  uploadErr := none
  importImage := .ok "import-ami-123"
  waitImport := none
  describeTasks := .ok ⟨"completed", "", "ami-111"⟩
  copyImage := .ok "ami-222"
  waitAMI := none
  destroyErr := none
  describeImages := .ok [⟨["snap-1"]⟩]
  createTagsErr := none
  modifyAttrErr := fun _ => none
  deleteObjectErr := none

/-- An environment in which the import waiter fails. -/
def envWaiterFail : ImportEnv :=
  { envHappy with
      waitImport := some "exceeded wait attempts"
      describeTasks := .ok ⟨"deleting", "Task canceled", "ami-111"⟩ }

/-- An environment in which the waiter returns but the job ended in a
non-completed status. -/
def envJobFail : ImportEnv :=
  { envHappy with
      describeTasks := .ok ⟨"deleted", "ClientError: disk not found", "ami-111"⟩ }

/-! ## State bags, `builder/chroot/step_manual_mount_command.go`, and
the ebsvolume `Builder.Run` result assembly -/

/-- `multistep.StepAction`: the two outcomes a step's `Run` can
return.  (By this return type a step can only signal an error through
the state bag, never by returning it.) -/
inductive StepAction where
  | actionContinue : StepAction
  | actionHalt : StepAction
deriving DecidableEq

/-- The chroot `Config` fields `StepManualMountCommand.Run` reads. -/
structure ChrootConfig where
  NVMEDevicePath : String
  MountPath : String
deriving DecidableEq

/-- Values stored in a state bag (the dynamically-typed
`interface{}`); one constructor per value shape the embedded code
stores or asserts. -/
inductive BagVal where
  | err : String → BagVal
  | str : String → BagVal
  | ui : BagVal
  | chrootConfig : ChrootConfig → BagVal
  | mountStep : String → String → BagVal
  | genData : List (String × String) → BagVal
  | ebsVols : List (String × List String) → BagVal
  | ebsSnaps : List (String × List String) → BagVal
  | handle : String → BagVal
deriving DecidableEq

/-- `multistep.BasicStateBag`: a string-keyed map, modelled as an
association list where `bagPut` replaces the key. -/
abbrev StateBag : Type := List (String × BagVal)

def bagGet : StateBag → String → Option BagVal
  | [], _ => none
  | (k2, v) :: rest, k => if k2 = k then some v else bagGet rest k

def eraseKey (k : String) : StateBag → StateBag
  | [] => []
  | (k2, v) :: rest =>
    if k2 = k then eraseKey k rest else (k2, v) :: eraseKey k rest

def bagPut (bag : StateBag) (k : String) (v : BagVal) : StateBag :=
  (k, v) :: eraseKey k bag

/-- `packerbuilderdata.GeneratedData.Put` (SDK): update the
`generated_data` map in the bag, creating it when absent. -/
def gdPut (bag : StateBag) (k v : String) : StateBag :=
  match bagGet bag "generated_data" with
  | some (.genData m) =>
    bagPut bag "generated_data"
      (.genData ((k, v) :: m.filter (fun kv => ¬ kv.1 = k)))
  | _ => bagPut bag "generated_data" (.genData [(k, v)])

/-- The external helpers `Run` calls: the SDK `interpolate.Render`
(template, `{{.Device}}` data) and the standard library
`filepath.Abs` / `filepath.Base`. -/
structure MountExternals where
  render : String → String → Except String String
  absPath : String → Except String String
  baseName : String → String

/-- Outcome of a Go `Run` method whose body performs `interface{}`
type assertions: `panicked` models a failed assertion; `done` carries
the returned action, the state bag afterwards, and the list of shell
commands executed. -/
inductive RunOutcome where
  | panicked : RunOutcome
  | done : StepAction → StateBag → List String → RunOutcome
deriving DecidableEq

/-- `StepManualMountCommand.Run`
(`builder/chroot/step_manual_mount_command.go`, lines 27–89).  The
shell invocation of the rendered command is commented out in the
source, so the executed-command list is always empty; an empty
`Command` returns `ActionContinue` before rendering; render/abs
failures store an error under `"error"` and halt; otherwise
`"mount_path"`, the `MountPath` generated datum and
`"mount_device_cleanup"` are published. -/
def manualMountRun (ext : MountExternals) (command : String)
    (state : StateBag) : RunOutcome :=
  match bagGet state "config" with
  | some (.chrootConfig config) =>
    match bagGet state "device" with
    | some (.str device) =>
      match bagGet state "ui" with
      | some .ui =>
        let device :=
          if ¬ config.NVMEDevicePath = "" then config.NVMEDevicePath else device
        if command = "" then .done .actionContinue state []
        else
          match ext.render config.MountPath (ext.baseName device) with
          | .error e =>
            .done .actionHalt
              (bagPut state "error"
                (.err ("Error preparing mount directory: " ++ e))) []
          | .ok mountPath =>
            match ext.absPath mountPath with
            | .error e =>
              .done .actionHalt
                (bagPut state "error"
                  (.err ("Error preparing mount directory: " ++ e))) []
            | .ok mountPath =>
              let s1 := bagPut state "mount_path" (.str mountPath)
              let s2 := gdPut s1 "MountPath" mountPath
              let s3 := bagPut s2 "mount_device_cleanup"
                (.mountStep command mountPath)
              .done .actionContinue s3 []
      | _ => .panicked
    | _ => .panicked
  | _ => .panicked

/-- `StepManualMountCommand.CleanupFunc` (lines 98–119): returns nil
immediately when no mount path was recorded; otherwise it asserts the
ui out of the bag (`none` models that panic), says a message — the
unmount command itself is commented out — and returns nil.  `some r`
is a normal return of `r`. -/
def manualMountCleanupFunc (mountPath : String) (state : StateBag) :
    Option (Option String) :=
  if mountPath = "" then some none
  else
    match bagGet state "ui" with
    | some .ui => some none
    | _ => none

/-- The ebsvolume `Artifact` fields `Builder.Run` fills. -/
structure EbsArtifact where
  Volumes : List (String × List String)
  Snapshots : List (String × List String)
  BuilderIdValue : String
deriving DecidableEq

def ebsVolumeBuilderId : String := "mitchellh.amazon.ebsvolume"

/-- The tail of the ebsvolume `Builder.Run` (lines 953–968): after the
runner finishes, a value stored under `"error"` is returned (through
the `rawErr.(error)` assertion) as the run's error with a nil
artifact; otherwise the artifact is assembled from the
`"ebsvolumes"`/`"ebssnapshots"` bag values.  The result pair is Go's
`(artifact, error)`; the outer `Option` is `none` exactly when one of
the Go type assertions on the bag values would panic. -/
def ebsVolumeRunFinish (state : StateBag) :
    Option (Option EbsArtifact × Option String) :=
  match bagGet state "error" with
  | some (.err e) => some (none, some e)
  | some _ => none
  | none =>
    match bagGet state "ebsvolumes", bagGet state "ebssnapshots" with
    | some (.ebsVols vs), some (.ebsSnaps ss) =>
      some (some ⟨vs, ss, ebsVolumeBuilderId⟩, none)
    | _, _ => none

/-- Externals for the mount examples: rendering succeeds and returns
the template, `Abs` is the identity. -/
def mountExtOk : MountExternals where
  render := fun t _ => .ok t
  absPath := fun p => .ok p
  baseName := fun s => s

/-- Externals whose template rendering fails. -/
def mountExtRenderFail : MountExternals where
  render := fun _ _ => .error "template error"
  absPath := fun p => .ok p
  baseName := fun s => s

/-- A state bag holding what `StepManualMountCommand.Run` reads. -/
def mountState : StateBag :=
  [("config", .chrootConfig ⟨"", "/mnt/dev"⟩),
   ("device", .str "/dev/xvdf"),
   ("ui", .ui)]

/-! ## `common/state.go` — `AWSPollingConfig.LogEnvOverrideWarnings` -/

/-- `AWSPollingConfig` from `common/state.go`. -/
structure AWSPollingConfig where
  MaxAttempts : Int
  DelaySeconds : Int
deriving DecidableEq

/-- The three environment variables the method reads (Go's
`os.Getenv` returns the empty string for unset variables). -/
structure PollEnv where
  pollDelayEnv : String
  timeoutSecondsEnv : String
  maxAttemptsEnv : String
deriving DecidableEq

def warnBothSet : String :=
  "AWS_MAX_ATTEMPTS and AWS_TIMEOUT_SECONDS are both set. Packer will use AWS_MAX_ATTEMPTS and discard AWS_TIMEOUT_SECONDS."

def warnBothSetNoDelay : String :=
  warnBothSet ++ "  Since you have not set the poll delay, Packer will default to a 2-second delay."

def warnTimeoutDeprecated : String :=
  "env var AWS_TIMEOUT_SECONDS is deprecated in favor of AWS_MAX_ATTEMPTS env or aws_polling_max_attempts config option."

def infoNoOverrides : String :=
  "No AWS timeout and polling overrides have been set. Packer will default to waiter-specific delays and timeouts."

/-- `AWSPollingConfig.LogEnvOverrideWarnings` (`common/state.go`,
lines 92–125): returns the log messages emitted, in order, and the
receiver afterwards (the method never assigns its fields). -/
def logEnvOverrideWarnings (w : AWSPollingConfig) (env : PollEnv) :
    List String × AWSPollingConfig :=
  let maxAttemptsIsSet := ¬ env.maxAttemptsEnv = "" ∨ ¬ w.MaxAttempts = 0
  let timeoutSecondsIsSet := ¬ env.timeoutSecondsEnv = ""
  let pollDelayIsSet := ¬ env.pollDelayEnv = "" ∨ ¬ w.DelaySeconds = 0
  let msgs1 : List String :=
    if maxAttemptsIsSet ∧ timeoutSecondsIsSet then
      [if pollDelayIsSet then warnBothSet else warnBothSetNoDelay]
    else if timeoutSecondsIsSet then [warnTimeoutDeprecated]
    else []
  let msgs2 : List String :=
    if ¬ maxAttemptsIsSet ∧ ¬ timeoutSecondsIsSet ∧ ¬ pollDelayIsSet then
      [infoNoOverrides]
    else []
  (msgs1 ++ msgs2, w)

end PackerAmazon

namespace PackerAmazon

/-- C7: `ValidateKmsKey` accepts the alias form `alias/my-key`, a bare
36-character hex-and-dash key id, and the full ARN
`arn:aws:kms:us-east-1:123456789012:key/<36-char id>`, and rejects
`not-a-key`. -/
theorem validateKmsKey_examples :
    ValidateKmsKey "alias/my-key" = true ∧
    ValidateKmsKey "0a1b2c3d-4e5f-6a7b-8c9d-0e1f2a3b4c5d" = true ∧
    ValidateKmsKey "arn:aws:kms:us-east-1:123456789012:key/0a1b2c3d-4e5f-6a7b-8c9d-0e1f2a3b4c5d" = true ∧
    ValidateKmsKey "not-a-key" = false := by
  refine ⟨?_, ?_, ?_, ?_⟩ <;> decide

/-- A character is a fixed point of `cleanAMINameChar` exactly when it
is in the allowed AMI-name character set. -/
theorem cleanAMINameChar_eq_self_iff (c : Char) :
    cleanAMINameChar c = c ↔ allowedAMINameChar c = true := by
  unfold cleanAMINameChar
  by_cases h : allowedAMINameChar c = true
  · simp [h]
  · rw [if_neg h]
    constructor
    · intro he
      exact absurd (he ▸ (by decide : allowedAMINameChar '-' = true)) h
    · intro hc
      exact absurd hc h

theorem map_cleanAMINameChar_eq_self_iff (l : List Char) :
    l.map cleanAMINameChar = l ↔ l.all allowedAMINameChar = true := by
  induction l with
  | nil => simp
  | cons c cs ih => simp [cleanAMINameChar_eq_self_iff, ih]

/-- A string is untouched by `templateCleanAMIName` exactly when all
its characters are allowed. -/
theorem templateCleanAMIName_eq_self_iff (s : String) :
    s = templateCleanAMIName s ↔ s.data.all allowedAMINameChar = true := by
  unfold templateCleanAMIName
  rw [String.ext_iff, eq_comm]
  exact map_cleanAMINameChar_eq_self_iff s.data

/-- On a configuration whose only set field is `ami_name`, `Prepare`
raises exactly the name checks. -/
theorem prepare_cfgNamed_errs (p : String → Bool) (name : String) :
    (AMIConfig.Prepare (cfgNamed name) none p).1 =
      (if name = "" then [amiNameRequiredErr] else []) ++
      (if name.length < 3 ∨ name.length > 128 then [amiNameLengthErr] else []) ++
      (if name = templateCleanAMIName name then [] else [amiNameCharsErr]) := by
  simp [AMIConfig.Prepare, cfgNamed, AMIConfig.prepareRegions, kmsKeysOf,
    stringInSlice, amiNameRequiredCheck, kmsRegionsSubsetCheck, shareAmiCheck,
    encryptBootCheck, kmsKeyValidCheck, shareSnapshotCheck, nameLengthCheck,
    nameCharsCheck, imdsCheck, deprecateCheck]

/-- C6: the AMI-name validation of `AMIConfig.Prepare` rejects the
two-character name `ab`, rejects every 129-character name, rejects
every name containing a hash character, and accepts every name of
length 3 to 128 over the allowed character set — in particular
`My AMI (v1.0) [test]`. -/
theorem amiConfig_name_validation :
    (∀ p, (AMIConfig.Prepare (cfgNamed "ab") none p).1 ≠ []) ∧
    (∀ p name, name.length = 129 →
      (AMIConfig.Prepare (cfgNamed name) none p).1 ≠ []) ∧
    (∀ p name, '#' ∈ name.data →
      (AMIConfig.Prepare (cfgNamed name) none p).1 ≠ []) ∧
    (∀ p name, 3 ≤ name.length → name.length ≤ 128 →
      name.data.all allowedAMINameChar = true →
      (AMIConfig.Prepare (cfgNamed name) none p).1 = []) ∧
    (∀ p, (AMIConfig.Prepare (cfgNamed "My AMI (v1.0) [test]") none p).1 = []) := by
  refine ⟨?_, ?_, ?_, ?_, ?_⟩
  · intro p
    rw [prepare_cfgNamed_errs]
    decide
  · intro p name h
    rw [prepare_cfgNamed_errs]
    rw [if_pos (Or.inr (by omega) : name.length < 3 ∨ name.length > 128)]
    simp
  · intro p name h
    rw [prepare_cfgNamed_errs]
    have hall : ¬ (name.data.all allowedAMINameChar = true) := by
      intro hall
      exact absurd (List.all_eq_true.mp hall _ h) (by decide)
    rw [if_neg (fun he => hall ((templateCleanAMIName_eq_self_iff name).mp he))]
    simp
  · intro p name h3 h128 hall
    rw [prepare_cfgNamed_errs]
    have h0 : ¬ (name = "") := by
      intro he
      rw [he] at h3
      exact absurd h3 (by decide)
    rw [if_neg h0, if_neg (by omega : ¬ (name.length < 3 ∨ name.length > 128)),
      if_pos ((templateCleanAMIName_eq_self_iff name).mpr hall)]
    rfl
  · intro p
    rw [prepare_cfgNamed_errs]
    decide

theorem amiConfig_name_validation_witness :
    (AMIConfig.Prepare (cfgNamed name129) none (fun _ => true)).1 ≠ [] ∧
    (AMIConfig.Prepare (cfgNamed "bad#name") none (fun _ => true)).1 ≠ [] ∧
    (AMIConfig.Prepare (cfgNamed "abc") none (fun _ => true)).1 = [] :=
  ⟨amiConfig_name_validation.2.1 _ name129 (by decide),
   amiConfig_name_validation.2.2.1 _ "bad#name" (by decide),
   amiConfig_name_validation.2.2.2.1 _ "abc" (by decide) (by decide) (by decide)⟩

theorem stringInSlice_iff (l : List String) (s : String) :
    stringInSlice l s = true ↔ s ∈ l := by
  simp [stringInSlice, List.any_eq_true, beq_iff_eq]

/-- Membership in the seen-accumulator form of first-occurrence
deduplication. -/
theorem mem_dedupFirstAux (x : String) (l : List String) : ∀ seen,
    x ∈ dedupFirstAux l seen ↔ x ∈ l ∧ ¬ x ∈ seen := by
  induction l with
  | nil => intro seen; simp [dedupFirstAux]
  | cons y ys ih =>
    intro seen
    unfold dedupFirstAux
    by_cases h : seen.contains y = true
    · rw [if_pos h, ih]
      have hy : y ∈ seen := List.elem_iff.mp h
      by_cases hxy : x = y
      · subst hxy
        simp [hy]
      · simp [hxy]
    · rw [if_neg h]
      have hy : ¬ y ∈ seen := fun hm => h (List.elem_iff.mpr hm)
      by_cases hxy : x = y
      · subst hxy
        simp [hy]
      · simp [hxy, List.mem_cons, ih]

/-- `prepareRegionsLoop` computes the kms-membership errors over the
first occurrences, and keeps exactly the first occurrences different
from the session region. -/
theorem prepareRegionsLoop_eq (kms : List (String × String)) (raw : Option String)
    (rs : List String) : ∀ seen,
    prepareRegionsLoop kms raw rs seen =
      ((dedupFirstAux rs seen).filterMap (regionKmsErrOf kms),
       (dedupFirstAux rs seen).filter (keepRegion raw)) := by
  induction rs with
  | nil => intro seen; rfl
  | cons r rest ih =>
    intro seen
    simp only [prepareRegionsLoop, dedupFirstAux]
    by_cases h : seen.contains r = true
    · rw [if_pos h, if_pos h, ih]
    · rw [if_neg h, if_neg h, ih]
      simp only [List.filterMap_cons, List.filter_cons, regionKmsErrOf]
      by_cases hc : (kms.length > 0 && !(kms.any (fun kv => kv.1 == r))) = true
      · simp [hc]
      · simp [hc]

/-- C9: `prepareRegions` deduplicates `ami_regions` preserving
first-occurrence order and silently drops the session region (the
error list does not depend on the session region at all); a
deduplicated region missing from a non-empty `region_kms_key_ids`
yields a validation error, as does a `region_kms_key_ids` key missing
from `ami_regions`. -/
theorem prepareRegions_spec :
    (∀ c raw,
      ((AMIConfig.prepareRegions c raw).2).AMIRegions =
        (dedupFirst c.AMIRegions).filter
          (keepRegion (raw.map (fun a => a.RawRegion)))) ∧
    (∀ c raw, (AMIConfig.prepareRegions c raw).1 =
        (AMIConfig.prepareRegions c none).1) ∧
    (∀ c raw r, r ∈ c.AMIRegions → c.AMIRegionKMSKeyIDs ≠ [] →
      (∀ v, ¬ (r, v) ∈ c.AMIRegionKMSKeyIDs) →
      regionNotInKmsErr r ∈ (AMIConfig.prepareRegions c raw).1) ∧
    (∀ c a p k v, (k, v) ∈ c.AMIRegionKMSKeyIDs → ¬ k ∈ c.AMIRegions →
      regionNotInAmiRegionsErr k ∈ (AMIConfig.Prepare c a p).1) := by
  refine ⟨?_, ?_, ?_, ?_⟩
  · intro c raw
    unfold AMIConfig.prepareRegions
    by_cases h : c.AMIRegions.length > 0
    · rw [if_pos h]
      simp [prepareRegionsLoop_eq, dedupFirst]
    · rw [if_neg h]
      have he : c.AMIRegions = [] := List.length_eq_zero.mp (by omega)
      simp [he, dedupFirst, dedupFirstAux]
  · intro c raw
    unfold AMIConfig.prepareRegions
    by_cases h : c.AMIRegions.length > 0
    · rw [if_pos h, if_pos h]
      simp [prepareRegionsLoop_eq]
    · rw [if_neg h, if_neg h]
  · intro c raw r hr hk hnone
    unfold AMIConfig.prepareRegions
    rw [if_pos (List.length_pos_of_mem hr)]
    simp only [prepareRegionsLoop_eq]
    apply List.mem_filterMap.mpr
    refine ⟨r, (mem_dedupFirstAux r _ []).mpr ⟨hr, by simp⟩, ?_⟩
    have h1 : c.AMIRegionKMSKeyIDs.length > 0 := List.length_pos.mpr hk
    have h2 : c.AMIRegionKMSKeyIDs.any (fun kv => kv.1 == r) = false := by
      apply List.any_eq_false.mpr
      rintro ⟨k1, v1⟩ hkv hbeq
      rw [beq_iff_eq] at hbeq
      subst hbeq
      exact hnone v1 hkv
    unfold regionKmsErrOf
    rw [if_pos (by simp [h1, h2])]
  · intro c a p k v hmem hnot
    have h1 : regionNotInAmiRegionsErr k ∈ kmsRegionsSubsetCheck c := by
      unfold kmsRegionsSubsetCheck
      rw [if_pos (List.length_pos_of_mem hmem)]
      refine List.mem_filterMap.mpr ⟨(k, v), hmem, ?_⟩
      rw [if_neg (fun hs => hnot ((stringInSlice_iff _ _).mp hs))]
    simp only [AMIConfig.Prepare, List.mem_append]
    tauto

/-- C5: with only `ami_users` set, the modification-request map has
exactly the one entry keyed `users`; in general the map's keys are
exactly those of the non-empty/non-default fields. -/
theorem importOptions_spec :
    buildOptions cfgUsersOnly = [("users", usersOnlyModifyInput)] ∧
    (∀ c, (buildOptions c).map Prod.fst =
      (if c.Description ≠ "" then ["description"] else []) ++
      (if c.Groups.length > 0 then ["groups"] else []) ++
      (if c.Users.length > 0 then ["users"] else []) ++
      (if c.OrgArns.length > 0 then ["ami org arns"] else []) ++
      (if c.OuArns.length > 0 then ["ami ou arns"] else []) ++
      (if c.AMIIMDSSupport ≠ "" then ["ami imds support"] else [])) := by
  constructor
  · rfl
  · intro c
    unfold buildOptions
    simp only [List.map_append]
    split_ifs <;> simp

theorem string_length_eq_zero_iff (s : String) : s.length = 0 ↔ s = "" := by
  constructor
  · intro h
    cases s with
    | mk data =>
      simp [String.length] at h
      simp [h]
  · intro h
    simp [h]

theorem iteSingleton_eq_nil_iff {α : Type} (p : Prop) [Decidable p] (e : α) :
    (if p then [e] else []) = [] ↔ ¬ p := by
  split_ifs with h <;> simp [h]

theorem iteNilSingleton_eq_nil_iff {α : Type} (p : Prop) [Decidable p] (e : α) :
    (if p then [] else [e]) = [] ↔ p := by
  split_ifs with h <;> simp [h]

theorem iteNoneSome_eq_none_iff {α : Type} (p : Prop) [Decidable p] (x : α) :
    (if p then none else some x) = none ↔ p := by
  split_ifs with h <;> simp [h]

theorem iteSomeNone_eq_none_iff {α : Type} (p : Prop) [Decidable p] (x : α) :
    (if p then some x else none) = none ↔ ¬ p := by
  split_ifs with h <;> simp [h]

theorem amiNameRequiredCheck_nil_iff (c : AMIConfig) :
    amiNameRequiredCheck c = [] ↔ c.AMIName ≠ "" := by
  unfold amiNameRequiredCheck
  exact iteSingleton_eq_nil_iff _ _

theorem kmsRegionsSubsetCheck_nil_iff (c : AMIConfig) :
    kmsRegionsSubsetCheck c = [] ↔
      ∀ kv ∈ c.AMIRegionKMSKeyIDs, kv.1 ∈ c.AMIRegions := by
  unfold kmsRegionsSubsetCheck
  by_cases h : c.AMIRegionKMSKeyIDs.length > 0
  · rw [if_pos h, List.filterMap_eq_nil_iff]
    refine forall_congr' fun kv => forall_congr' fun hkv => ?_
    rw [iteNoneSome_eq_none_iff]
    exact stringInSlice_iff _ _
  · rw [if_neg h]
    have he : c.AMIRegionKMSKeyIDs = [] := List.length_eq_zero.mp (by omega)
    simp [he]

theorem prepareRegions_errs_nil_iff (c : AMIConfig) (a : Option AccessConfig) :
    (AMIConfig.prepareRegions c a).1 = [] ↔
      ∀ r ∈ c.AMIRegions, c.AMIRegionKMSKeyIDs ≠ [] →
        ∃ kv ∈ c.AMIRegionKMSKeyIDs, kv.1 = r := by
  unfold AMIConfig.prepareRegions
  by_cases h : c.AMIRegions.length > 0
  · rw [if_pos h]
    simp only [prepareRegionsLoop_eq]
    rw [List.filterMap_eq_nil_iff]
    constructor
    · intro hall r hr hk
      have h2 := hall r ((mem_dedupFirstAux r _ []).mpr ⟨hr, by simp⟩)
      unfold regionKmsErrOf at h2
      rw [iteSomeNone_eq_none_iff] at h2
      have hl : c.AMIRegionKMSKeyIDs.length > 0 := List.length_pos.mpr hk
      rcases Bool.eq_false_or_eq_true
          (c.AMIRegionKMSKeyIDs.any (fun kv => kv.1 == r)) with ha | ha
      · obtain ⟨kv, hkv, hbeq⟩ := List.any_eq_true.mp ha
        exact ⟨kv, hkv, beq_iff_eq.mp hbeq⟩
      · exact absurd (by simp [hl, ha]) h2
    · intro hall r hrm
      have hr : r ∈ c.AMIRegions := ((mem_dedupFirstAux r _ []).mp hrm).1
      unfold regionKmsErrOf
      rw [iteSomeNone_eq_none_iff]
      intro hcond
      have hl : c.AMIRegionKMSKeyIDs ≠ [] := by
        intro he
        rw [he] at hcond
        simp at hcond
      obtain ⟨kv, hkv, hfst⟩ := hall r hr hl
      have hany : c.AMIRegionKMSKeyIDs.any (fun kv => kv.1 == r) = true :=
        List.any_eq_true.mpr ⟨kv, hkv, beq_iff_eq.mpr hfst⟩
      simp [hany] at hcond
  · rw [if_neg h]
    have he : c.AMIRegions = [] := List.length_eq_zero.mp (by omega)
    simp [he]

/-- The condition under which the default-KMS-key sharing error list
(shared shape of `shareAmiCheck`/`shareSnapshotCheck` bodies) is empty. -/
theorem shareBody_nil_iff (c : AMIConfig) (e1 e2 : String) :
    ((if c.AMIKmsKeyId.length = 0 && c.AMIRegionKMSKeyIDs.length = 0 &&
        c.AMIEncryptBootVolume.isTrue then [e1] else []) ++
     (if c.AMIRegionKMSKeyIDs.length > 0 then
        c.AMIRegionKMSKeyIDs.filterMap (fun kv =>
          if kv.2.length = 0 then some e2 else none)
      else [])) = [] ↔
      (¬ (c.AMIKmsKeyId = "" ∧ c.AMIRegionKMSKeyIDs = [] ∧
          c.AMIEncryptBootVolume.isTrue = true) ∧
       ∀ kv ∈ c.AMIRegionKMSKeyIDs, kv.2 ≠ "") := by
  rw [List.append_eq_nil, iteSingleton_eq_nil_iff]
  apply and_congr
  · rw [Bool.and_eq_true, Bool.and_eq_true]
    simp only [decide_eq_true_eq, string_length_eq_zero_iff, List.length_eq_zero]
    tauto
  · by_cases h : c.AMIRegionKMSKeyIDs.length > 0
    · rw [if_pos h, List.filterMap_eq_nil_iff]
      refine forall_congr' fun kv => forall_congr' fun hkv => ?_
      rw [iteSomeNone_eq_none_iff, string_length_eq_zero_iff]
    · rw [if_neg h]
      have he : c.AMIRegionKMSKeyIDs = [] := List.length_eq_zero.mp (by omega)
      simp [he]

theorem shareAmiCheck_nil_iff (c : AMIConfig) :
    shareAmiCheck c = [] ↔
      ((c.AMIUsers ≠ [] ∨ c.AMIOrgArns ≠ [] ∨ c.AMIOuArns ≠ []) →
        (¬ (c.AMIKmsKeyId = "" ∧ c.AMIRegionKMSKeyIDs = [] ∧
            c.AMIEncryptBootVolume.isTrue = true) ∧
         ∀ kv ∈ c.AMIRegionKMSKeyIDs, kv.2 ≠ "")) := by
  unfold shareAmiCheck
  by_cases h : (c.AMIUsers.length > 0 || c.AMIOrgArns.length > 0 ||
      c.AMIOuArns.length > 0) = true
  · rw [if_pos h, shareBody_nil_iff]
    have hne : c.AMIUsers ≠ [] ∨ c.AMIOrgArns ≠ [] ∨ c.AMIOuArns ≠ [] := by
      rw [Bool.or_eq_true, Bool.or_eq_true] at h
      simp only [decide_eq_true_eq, ← List.length_pos] at *
      omega
    tauto
  · rw [if_neg h]
    have hu : c.AMIUsers = [] := by
      by_contra hne
      exact h (by simp [List.length_pos.mpr hne])
    have ho : c.AMIOrgArns = [] := by
      by_contra hne
      exact h (by simp [List.length_pos.mpr hne])
    have hq : c.AMIOuArns = [] := by
      by_contra hne
      exact h (by simp [List.length_pos.mpr hne])
    simp [hu, ho, hq]

theorem shareSnapshotCheck_nil_iff (c : AMIConfig) :
    shareSnapshotCheck c = [] ↔
      (c.SnapshotUsers ≠ [] →
        (¬ (c.AMIKmsKeyId = "" ∧ c.AMIRegionKMSKeyIDs = [] ∧
            c.AMIEncryptBootVolume.isTrue = true) ∧
         ∀ kv ∈ c.AMIRegionKMSKeyIDs, kv.2 ≠ "")) := by
  unfold shareSnapshotCheck
  by_cases h : c.SnapshotUsers.length > 0
  · rw [if_pos h, shareBody_nil_iff]
    have hne : c.SnapshotUsers ≠ [] := by
      rw [← List.length_pos]
      omega
    tauto
  · rw [if_neg h]
    have he : c.SnapshotUsers = [] := List.length_eq_zero.mp (by omega)
    simp [he]

theorem encryptBootCheck_nil_iff (c : AMIConfig) :
    encryptBootCheck c = [] ↔
      (kmsKeysOf c ≠ [] → c.AMIEncryptBootVolume.isTrue = true) := by
  unfold encryptBootCheck
  rw [iteSingleton_eq_nil_iff, Bool.and_eq_true]
  simp only [decide_eq_true_eq, Bool.not_eq_true', List.length_pos]
  constructor
  · intro hn hk
    by_contra hf
    exact hn ⟨hk, by simp [hf]⟩
  · rintro himp ⟨hk, hf⟩
    rw [himp hk] at hf
    cases hf

theorem kmsKeyValidCheck_nil_iff (c : AMIConfig) :
    kmsKeyValidCheck c = [] ↔ ∀ k ∈ kmsKeysOf c, ValidateKmsKey k = true := by
  unfold kmsKeyValidCheck
  rw [List.filterMap_eq_nil_iff]
  refine forall_congr' fun k => forall_congr' fun hk => ?_
  rw [iteNoneSome_eq_none_iff]

theorem nameLengthCheck_nil_iff (c : AMIConfig) :
    nameLengthCheck c = [] ↔ 3 ≤ c.AMIName.length ∧ c.AMIName.length ≤ 128 := by
  unfold nameLengthCheck
  rw [iteSingleton_eq_nil_iff]
  omega

theorem nameCharsCheck_nil_iff (c : AMIConfig) :
    nameCharsCheck c = [] ↔ c.AMIName = templateCleanAMIName c.AMIName := by
  unfold nameCharsCheck
  exact iteNilSingleton_eq_nil_iff _ _

theorem imdsCheck_nil_iff (c : AMIConfig) :
    imdsCheck c = [] ↔ c.AMIIMDSSupport = "" ∨ c.AMIIMDSSupport = "v2.0" := by
  unfold imdsCheck
  exact iteNilSingleton_eq_nil_iff _ _

theorem deprecateCheck_nil_iff (c : AMIConfig) (p : String → Bool) :
    deprecateCheck c p = [] ↔
      c.DeprecationTime = "" ∨ p c.DeprecationTime = true := by
  unfold deprecateCheck
  split_ifs with h1 h2 <;> simp_all

theorem bootModeCheck_nil_iff (c0 : ImportConfig) (ext : ConfigureExt) :
    bootModeCheck c0 ext = [] ↔
      (c0.BootMode ≠ "" → ext.isValidBootModeErr c0.BootMode = none) := by
  unfold bootModeCheck
  by_cases h : c0.BootMode = ""
  · simp [h]
  · rw [if_neg h]
    cases hiv : ext.isValidBootModeErr c0.BootMode <;> simp [h, hiv]

theorem s3KeyTemplateCheck_nil_iff (ext : ConfigureExt) :
    s3KeyTemplateCheck ext = [] ↔ ext.s3KeyTemplateErr = none := by
  unfold s3KeyTemplateCheck
  cases h : ext.s3KeyTemplateErr <;> simp

theorem platformCheck_nil_iff (c : ImportConfig) :
    platformCheck c = [] ↔
      (c.Platform = "windows" ∨ c.Platform = "linux" ∨
       (c.Platform = "" ∧ c.BootMode ≠ "uefi")) := by
  unfold platformCheck
  split_ifs with h1 h2 h3 <;> simp_all <;> tauto

theorem arm64Check_nil_iff (c : ImportConfig) :
    arm64Check c = [] ↔ (c.Architecture = "arm64" → c.BootMode = "uefi") := by
  unfold arm64Check
  rw [iteSingleton_eq_nil_iff]
  tauto

theorem configureValidate_nil_iff (c0 : ImportConfig) (ext : ConfigureExt) :
    (configureValidate c0 ext).2 = [] ↔ ConfigureChecksPass c0 ext := by
  show (bootModeCheck c0 ext ++ s3KeyTemplateCheck ext ++ ext.accessPrepareErrs ++
      s3BucketCheck (applyImportDefaults c0) ++ formatCheck (applyImportDefaults c0) ++
      platformCheck (applyImportDefaults c0) ++ s3EncryptionCheck (applyImportDefaults c0) ++
      bootModeEnumCheck (applyImportDefaults c0) ++ arm64Check (applyImportDefaults c0) ++
      imdsImportCheck (applyImportDefaults c0)) = [] ↔ _
  simp only [List.append_eq_nil, and_assoc]
  unfold ConfigureChecksPass
  refine and_congr (bootModeCheck_nil_iff c0 ext) ?_
  refine and_congr (s3KeyTemplateCheck_nil_iff ext) ?_
  refine and_congr Iff.rfl ?_
  refine and_congr ?_ ?_
  · unfold s3BucketCheck
    exact iteSingleton_eq_nil_iff _ _
  refine and_congr ?_ ?_
  · unfold formatCheck
    exact iteNilSingleton_eq_nil_iff _ _
  refine and_congr (platformCheck_nil_iff _) ?_
  refine and_congr ?_ ?_
  · unfold s3EncryptionCheck
    exact iteNilSingleton_eq_nil_iff _ _
  refine and_congr ?_ ?_
  · unfold bootModeEnumCheck
    exact iteNilSingleton_eq_nil_iff _ _
  refine and_congr (arm64Check_nil_iff _) ?_
  unfold imdsImportCheck
  exact iteNilSingleton_eq_nil_iff _ _

theorem amiPrepare_nil_iff (c : AMIConfig) (a : Option AccessConfig)
    (p : String → Bool) :
    (AMIConfig.Prepare c a p).1 = [] ↔ PrepareChecksPass c p := by
  show (amiNameRequiredCheck c ++ kmsRegionsSubsetCheck c ++
      (c.prepareRegions a).1 ++ shareAmiCheck c ++ encryptBootCheck c ++
      kmsKeyValidCheck c ++ shareSnapshotCheck c ++ nameLengthCheck c ++
      nameCharsCheck c ++ imdsCheck c ++ deprecateCheck c p) = [] ↔ _
  simp only [List.append_eq_nil, and_assoc]
  unfold PrepareChecksPass
  refine and_congr (amiNameRequiredCheck_nil_iff c) ?_
  refine and_congr (kmsRegionsSubsetCheck_nil_iff c) ?_
  refine and_congr (prepareRegions_errs_nil_iff c a) ?_
  refine and_congr (shareAmiCheck_nil_iff c) ?_
  refine and_congr (encryptBootCheck_nil_iff c) ?_
  refine and_congr (kmsKeyValidCheck_nil_iff c) ?_
  refine and_congr (shareSnapshotCheck_nil_iff c) ?_
  refine and_congr (nameLengthCheck_nil_iff c) ?_
  refine and_congr (nameCharsCheck_nil_iff c) ?_
  exact and_congr (imdsCheck_nil_iff c) (deprecateCheck_nil_iff c p)

/-- C8: configuration validation collects every error: the bad-format
plus bad-platform import configuration reports both errors; the
short-name plus bad-KMS-key AMI configuration reports both errors; and
both validators return no error exactly when every check passes. -/
theorem config_errors_all_collected :
    (invalidFormatErr "qcow2" ∈ (configureValidate cfgBadFmtPlat extNone).2 ∧
     invalidPlatformErr "osx" ∈ (configureValidate cfgBadFmtPlat extNone).2) ∧
    (∀ p, kmsKeyInvalidErr "not-a-key" ∈
        (AMIConfig.Prepare cfgShortNameBadKms none p).1 ∧
      amiNameLengthErr ∈ (AMIConfig.Prepare cfgShortNameBadKms none p).1) ∧
    (∀ c0 ext, (configureValidate c0 ext).2 = [] ↔ ConfigureChecksPass c0 ext) ∧
    (∀ c a p, (AMIConfig.Prepare c a p).1 = [] ↔ PrepareChecksPass c p) := by
  refine ⟨⟨by decide, by decide⟩, ?_, configureValidate_nil_iff, amiPrepare_nil_iff⟩
  intro p
  have he : (AMIConfig.Prepare cfgShortNameBadKms none p).1 =
      [kmsKeyInvalidErr "not-a-key", amiNameLengthErr] := rfl
  rw [he]
  exact ⟨List.Mem.head _, List.Mem.tail _ (List.Mem.head _)⟩

theorem config_errors_all_collected_witness :
    (kmsKeyInvalidErr "not-a-key" ∈
        (AMIConfig.Prepare cfgShortNameBadKms none (fun _ => true)).1 ∧
      amiNameLengthErr ∈
        (AMIConfig.Prepare cfgShortNameBadKms none (fun _ => true)).1) ∧
    ((configureValidate (applyImportDefaults cfgUsersOnly) extNone).2 = [] ↔
      ConfigureChecksPass (applyImportDefaults cfgUsersOnly) extNone) :=
  ⟨config_errors_all_collected.2.1 (fun _ => true),
   config_errors_all_collected.2.2.1 (applyImportDefaults cfgUsersOnly) extNone⟩

/-- C2: once upload and import start succeed, a waiter failure, or a
terminal task status other than `completed`, yields an error carrying
the task id and the task's status message (fetched from
`DescribeImportImageTasks`; the waiter error is reported distinctly
from a job failure) with no artifact, and the trace stops at the
describe call — no rename/tagging/modification/deletion call is ever
attempted. -/
theorem importTask_failure_aborts (cfg : ImportConfig) (env : ImportEnv)
    (k src tid : String)
    (hs : env.sessionErr = none)
    (hr : env.renderedS3Key = .ok k)
    (hf : findSourceFile cfg.Format env.artifactFiles = some src)
    (ho : env.openErr = none)
    (hu : env.uploadErr = none)
    (hi : env.importImage = .ok tid) :
    (∀ e, env.waitImport = some e →
      postProcess cfg env =
        ([.upload, .importImage, .waitImport, .describeTasks],
         .error ("Import task " ++ tid ++ " failed with status message: " ++
           waiterStatusMessage env ++ ", error: " ++ e))) ∧
    (∀ t, env.waitImport = none → env.describeTasks = .ok t →
      t.status ≠ "completed" →
      postProcess cfg env =
        ([.upload, .importImage, .waitImport, .describeTasks],
         .error ("Import task " ++ tid ++ " failed: " ++ t.statusMessage))) ∧
    ([Call.upload, .importImage, .waitImport, .describeTasks].filter
        isLaterPhaseCall = []) := by
  refine ⟨?_, ?_, by decide⟩
  · intro e hw
    simp [postProcess, hs, hr, hf, ho, hu, hi, hw]
  · intro t hw ht hst
    simp [postProcess, hs, hr, hf, ho, hu, hi, hw, ht, hst]

theorem modifyPhase_all_ok (opts : List (String × ModifyImageAttributeInput))
    (f : String → Option String) (h : ∀ n, f n = none) :
    modifyPhase opts f = (opts.map (fun x => Call.modifyAttr x.1), .ok ()) := by
  induction opts with
  | nil => rfl
  | cons o rest ih =>
    obtain ⟨n, v⟩ := o
    simp [modifyPhase, h n, ih]

theorem filter_rename_modify (l : List (String × ModifyImageAttributeInput)) :
    (l.map (fun x => Call.modifyAttr x.1)).filter isRenameCall = [] := by
  induction l with
  | nil => rfl
  | cons o rest ih => simp [isRenameCall, ih]

/-- C3: with `ami_name` configured and the import completed, the
pipeline succeeds through copy → wait-available → destroy-intermediary
(in that order, and these are the only rename-phase calls), and the
artifact maps the session region to the copied image id, not the
intermediary one. -/
theorem importRename_spec (cfg : ImportConfig) (env : ImportEnv)
    (k src tid newId : String) (t : ImportTaskInfo)
    (hs : env.sessionErr = none)
    (hr : env.renderedS3Key = .ok k)
    (hf : findSourceFile cfg.Format env.artifactFiles = some src)
    (ho : env.openErr = none)
    (hu : env.uploadErr = none)
    (hi : env.importImage = .ok tid)
    (hw : env.waitImport = none)
    (ht : env.describeTasks = .ok t)
    (hst : t.status = "completed")
    (hname : cfg.Name ≠ "")
    (hcopy : env.copyImage = .ok newId)
    (hwA : env.waitAMI = none)
    (hdes : env.destroyErr = none)
    (htags : cfg.Tags = [] ∨
      (∃ img rest, env.describeImages = .ok (img :: rest) ∧
        env.createTagsErr = none))
    (hmod : ∀ n, env.modifyAttrErr n = none)
    (hclean : cfg.SkipClean = true ∨ env.deleteObjectErr = none) :
    (postProcess cfg env).2 =
      .ok { amis := [(env.region, newId)], builderId := importBuilderId } ∧
    (postProcess cfg env).1.filter isRenameCall =
      [.copyImage, .waitAMI, .destroyAMIs] := by
  have hren : renamePhase cfg env t.imageId =
      ([.copyImage, .waitAMI, .destroyAMIs], .ok newId) := by
    simp [renamePhase, hname, hcopy, hwA, hdes]
  have htg2 : (tagPhase cfg env newId).2 = .ok () := by
    rcases htags with hT | ⟨img, rest, hdi, hct⟩
    · simp [tagPhase, hT]
    · unfold tagPhase
      split_ifs with hl
      · simp [hdi, hct]
      · rfl
  have htg1 : (tagPhase cfg env newId).1.filter isRenameCall = [] := by
    rcases htags with hT | ⟨img, rest, hdi, hct⟩
    · simp [tagPhase, hT]
    · unfold tagPhase
      split_ifs with hl
      · simp [hdi, hct, isRenameCall]
      · rfl
  have hmd := modifyPhase_all_ok (buildOptions cfg) env.modifyAttrErr hmod
  have hcl2 : (sourceCleanupPhase cfg.SkipClean cfg.S3Bucket k
      env.deleteObjectErr).2 = .ok () := by
    rcases hclean with hS | hD
    · simp [sourceCleanupPhase, hS]
    · unfold sourceCleanupPhase
      split_ifs with hl
      · rfl
      · simp [hD]
  have hcl1 : (sourceCleanupPhase cfg.SkipClean cfg.S3Bucket k
      env.deleteObjectErr).1.filter isRenameCall = [] := by
    rcases hclean with hS | hD
    · simp [sourceCleanupPhase, hS]
    · unfold sourceCleanupPhase
      split_ifs with hl
      · rfl
      · simp [hD, isRenameCall]
  have hmain : postProcess cfg env =
      ([Call.upload, .importImage, .waitImport, .describeTasks] ++
        [.copyImage, .waitAMI, .destroyAMIs] ++ (tagPhase cfg env newId).1 ++
        (buildOptions cfg).map (fun x => Call.modifyAttr x.1) ++
        (sourceCleanupPhase cfg.SkipClean cfg.S3Bucket k env.deleteObjectErr).1,
       .ok { amis := [(env.region, newId)], builderId := importBuilderId }) := by
    unfold postProcess
    simp only [hs, hr, hf, ho, hu, hi, hw, ht]
    rw [if_neg (by simp [hst])]
    simp only [hren, hmd]
    cases h2 : (tagPhase cfg env newId).2 with
    | error e => rw [htg2] at h2; cases h2
    | ok u =>
      cases h3 : (sourceCleanupPhase cfg.SkipClean cfg.S3Bucket k
          env.deleteObjectErr).2 with
      | error e => rw [hcl2] at h3; cases h3
      | ok u2 => simp [h2, h3]
  rw [hmain]
  constructor
  · rfl
  · simp [List.filter_append, htg1, hcl1, filter_rename_modify, isRenameCall]

theorem bagGet_eraseKey_ne (k k2 : String) (h : k ≠ k2) (bag : StateBag) :
    bagGet (eraseKey k bag) k2 = bagGet bag k2 := by
  induction bag with
  | nil => rfl
  | cons kv rest ih =>
    obtain ⟨k3, v⟩ := kv
    by_cases h3 : k3 = k
    · subst h3
      simp [eraseKey, bagGet, ih, h]
    · by_cases h2 : k3 = k2
      · subst h2
        simp [eraseKey, bagGet, h3]
      · simp [eraseKey, bagGet, h3, h2, ih]

theorem bagGet_put_self (bag : StateBag) (k : String) (v : BagVal) :
    bagGet (bagPut bag k v) k = some v := by
  simp [bagPut, bagGet]

theorem bagGet_put_ne (bag : StateBag) (k k2 : String) (v : BagVal)
    (h : k ≠ k2) : bagGet (bagPut bag k v) k2 = bagGet bag k2 := by
  simp [bagPut, bagGet, h, bagGet_eraseKey_ne k k2 h bag]

theorem bagGet_gdPut_ne (bag : StateBag) (k v : String) (k2 : String)
    (h : k2 ≠ "generated_data") :
    bagGet (gdPut bag k v) k2 = bagGet bag k2 := by
  unfold gdPut
  cases hb : bagGet bag "generated_data" with
  | none => exact bagGet_put_ne _ _ _ _ (Ne.symm h)
  | some w => cases w <;> exact bagGet_put_ne _ _ _ _ (Ne.symm h)

/-- C4 (amended): with a non-empty configured `Command`, whenever
rendering the mount path and resolving it to an absolute path succeed,
`Run` returns `ActionContinue`, publishes `"mount_path"` and
`"mount_device_cleanup"`, and executes no external command; with an
empty `Command` it returns `ActionContinue` immediately without
publishing; and `CleanupFunc` can never return an error. -/
theorem manualMountRun_spec :
    (∀ ext command state c d mp mp2,
      bagGet state "config" = some (.chrootConfig c) →
      bagGet state "device" = some (.str d) →
      bagGet state "ui" = some .ui →
      command ≠ "" →
      ext.render c.MountPath (ext.baseName
        (if ¬ c.NVMEDevicePath = "" then c.NVMEDevicePath else d)) = .ok mp →
      ext.absPath mp = .ok mp2 →
      ∃ s3, manualMountRun ext command state = .done .actionContinue s3 [] ∧
        bagGet s3 "mount_path" = some (.str mp2) ∧
        bagGet s3 "mount_device_cleanup" = some (.mountStep command mp2)) ∧
    (∀ ext state c d,
      bagGet state "config" = some (.chrootConfig c) →
      bagGet state "device" = some (.str d) →
      bagGet state "ui" = some .ui →
      manualMountRun ext "" state = .done .actionContinue state []) ∧
    (∀ mp state e, manualMountCleanupFunc mp state ≠ some (some e)) := by
  refine ⟨?_, ?_, ?_⟩
  · intro ext command state c d mp mp2 hc hd hu hcmd hr ha
    unfold manualMountRun
    simp only [hc, hd, hu]
    rw [if_neg hcmd]
    simp only [hr, ha]
    refine ⟨_, rfl, ?_, ?_⟩
    · rw [bagGet_put_ne _ _ _ _ (by decide), bagGet_gdPut_ne _ _ _ _ (by decide)]
      exact bagGet_put_self _ _ _
    · exact bagGet_put_self _ _ _
  · intro ext state c d hc hd hu
    unfold manualMountRun
    simp [hc, hd, hu]
  · intro mp state e
    unfold manualMountCleanupFunc
    split_ifs
    · simp
    · cases hb : bagGet state "ui" with
      | none => simp
      | some w => cases w <;> simp

/-- C4 counterexample: with an empty `Command` and a state bag in
which rendering and path resolution would succeed, `Run` returns
`ActionContinue` but leaves the bag untouched — neither
`"mount_path"` nor `"mount_device_cleanup"` is published, contrary to
the claim's universally quantified publishing clause. -/
theorem manualMountRun_emptyCommand_counterexample :
    manualMountRun mountExtOk "" mountState = .done .actionContinue mountState [] ∧
    bagGet mountState "mount_path" = none ∧
    bagGet mountState "mount_device_cleanup" = none := by
  refine ⟨rfl, rfl, rfl⟩

theorem manualMountRun_spec_witness :
    (∃ s3, manualMountRun mountExtOk "mount" mountState =
        .done .actionContinue s3 [] ∧
      bagGet s3 "mount_path" = some (.str "/mnt/dev") ∧
      bagGet s3 "mount_device_cleanup" = some (.mountStep "mount" "/mnt/dev")) ∧
    manualMountCleanupFunc "" [] ≠ some (some "boom") :=
  ⟨manualMountRun_spec.1 mountExtOk "mount" mountState ⟨"", "/mnt/dev"⟩
      "/dev/xvdf" "/mnt/dev" "/mnt/dev" rfl rfl rfl (by decide) rfl rfl,
   manualMountRun_spec.2.2 "" [] "boom"⟩

/-- C1: the ebsvolume `Builder.Run` returns a stored `"error"` value
as the run's error with no artifact; with no stored error it returns
the artifact assembled from the `"ebsvolumes"`/`"ebssnapshots"` bag
values and no error; and a failing step (`StepManualMountCommand.Run`
on a render failure) halts after storing the error in the bag — its
return type (`StepAction`) cannot carry the error. -/
theorem ebsVolumeRun_error_propagation :
    (∀ state e, bagGet state "error" = some (.err e) →
      ebsVolumeRunFinish state = some (none, some e)) ∧
    (∀ state vs ss, bagGet state "error" = none →
      bagGet state "ebsvolumes" = some (.ebsVols vs) →
      bagGet state "ebssnapshots" = some (.ebsSnaps ss) →
      ebsVolumeRunFinish state =
        some (some ⟨vs, ss, ebsVolumeBuilderId⟩, none)) ∧
    (∀ ext command state c d e,
      bagGet state "config" = some (.chrootConfig c) →
      bagGet state "device" = some (.str d) →
      bagGet state "ui" = some .ui →
      command ≠ "" →
      ext.render c.MountPath (ext.baseName
        (if ¬ c.NVMEDevicePath = "" then c.NVMEDevicePath else d)) = .error e →
      manualMountRun ext command state =
        .done .actionHalt
          (bagPut state "error"
            (.err ("Error preparing mount directory: " ++ e))) [] ∧
      bagGet (bagPut state "error"
          (.err ("Error preparing mount directory: " ++ e))) "error" =
        some (.err ("Error preparing mount directory: " ++ e))) := by
  refine ⟨?_, ?_, ?_⟩
  · intro state e he
    unfold ebsVolumeRunFinish
    rw [he]
  · intro state vs ss he hv hs
    unfold ebsVolumeRunFinish
    rw [he, hv, hs]
  · intro ext command state c d e hc hd hu hcmd hr
    constructor
    · unfold manualMountRun
      simp only [hc, hd, hu]
      rw [if_neg hcmd]
      simp only [hr]
    · exact bagGet_put_self _ _ _

theorem ebsVolumeRun_error_propagation_witness :
    ebsVolumeRunFinish [("error", .err "boom")] = some (none, some "boom") ∧
    ebsVolumeRunFinish
        [("ebsvolumes", .ebsVols [("us-east-1", ["vol-1"])]),
         ("ebssnapshots", .ebsSnaps [])] =
      some (some ⟨[("us-east-1", ["vol-1"])], [], ebsVolumeBuilderId⟩, none) ∧
    manualMountRun mountExtRenderFail "mount" mountState =
      .done .actionHalt
        (bagPut mountState "error"
          (.err "Error preparing mount directory: template error")) [] :=
  ⟨ebsVolumeRun_error_propagation.1 _ _ rfl,
   ebsVolumeRun_error_propagation.2.1 _ _ _ rfl rfl rfl,
   (ebsVolumeRun_error_propagation.2.2 mountExtRenderFail "mount" mountState
      ⟨"", "/mnt/dev"⟩ "/dev/xvdf" "template error" rfl rfl rfl (by decide) rfl).1⟩

/-- C10 counterexample: with `MaxAttempts = 5` in the config and all
three environment variables unset, `LogEnvOverrideWarnings` emits no
message at all — not exactly one as claimed. -/
theorem logEnvOverrideWarnings_counterexample :
    logEnvOverrideWarnings ⟨5, 0⟩ ⟨"", "", ""⟩ = ([], ⟨5, 0⟩) := by
  rfl

/-- C10 (amended): `LogEnvOverrideWarnings` never changes the config
fields and emits at most one message: exactly one when
`AWS_TIMEOUT_SECONDS` is set, or when no override (environment or
config) is set at all, and none otherwise. -/
theorem logEnvOverrideWarnings_spec :
    ∀ w env,
      (logEnvOverrideWarnings w env).2 = w ∧
      (logEnvOverrideWarnings w env).1.length ≤ 1 ∧
      ((logEnvOverrideWarnings w env).1.length = 1 ↔
        (env.timeoutSecondsEnv ≠ "" ∨
         (env.maxAttemptsEnv = "" ∧ w.MaxAttempts = 0 ∧
          env.pollDelayEnv = "" ∧ w.DelaySeconds = 0))) := by
  intro w env
  unfold logEnvOverrideWarnings
  by_cases hm : (¬ env.maxAttemptsEnv = "" ∨ ¬ w.MaxAttempts = 0) <;>
    by_cases ht : ¬ env.timeoutSecondsEnv = "" <;>
      by_cases hp : (¬ env.pollDelayEnv = "" ∨ ¬ w.DelaySeconds = 0) <;>
        push_neg at hm hp <;> simp [hm, ht, hp] <;> tauto

theorem importTask_failure_aborts_witness :
    postProcess cfgImportEx envWaiterFail =
      ([.upload, .importImage, .waitImport, .describeTasks],
       .error "Import task import-ami-123 failed with status message: Task canceled, error: exceeded wait attempts") ∧
    postProcess cfgImportEx envJobFail =
      ([.upload, .importImage, .waitImport, .describeTasks],
       .error "Import task import-ami-123 failed: ClientError: disk not found") :=
  ⟨(importTask_failure_aborts cfgImportEx envWaiterFail "packer-import.ova"
      "build/output.ova" "import-ami-123" rfl rfl (by decide) rfl rfl rfl).1
      "exceeded wait attempts" rfl,
   (importTask_failure_aborts cfgImportEx envJobFail "packer-import.ova"
      "build/output.ova" "import-ami-123" rfl rfl (by decide) rfl rfl rfl).2.1
      ⟨"deleted", "ClientError: disk not found", "ami-111"⟩ rfl rfl (by decide)⟩

theorem importRename_spec_witness :
    (postProcess cfgImportEx envHappy).2 =
      .ok { amis := [("us-east-1", "ami-222")], builderId := importBuilderId } ∧
    (postProcess cfgImportEx envHappy).1.filter isRenameCall =
      [.copyImage, .waitAMI, .destroyAMIs] :=
  importRename_spec cfgImportEx envHappy "packer-import.ova" "build/output.ova"
    "import-ami-123" "ami-222" ⟨"completed", "", "ami-111"⟩
    rfl rfl (by decide) rfl rfl rfl rfl rfl rfl (by decide) rfl rfl rfl
    (Or.inr ⟨⟨["snap-1"]⟩, [], rfl, rfl⟩) (fun _ => rfl) (Or.inr rfl)

theorem prepareRegions_spec_witness :
    regionNotInKmsErr "us-west-2" ∈
      (AMIConfig.prepareRegions cfgRegionsEx (some ⟨"us-east-1"⟩)).1 ∧
    regionNotInAmiRegionsErr "eu-west-1" ∈
      (AMIConfig.Prepare cfgRegionsEx (some ⟨"us-east-1"⟩) (fun _ => true)).1 :=
  ⟨prepareRegions_spec.2.2.1 _ _ "us-west-2" (by decide) (by decide)
      (by intro v; simp [cfgRegionsEx, cfgNamed]),
   prepareRegions_spec.2.2.2 _ _ _ "eu-west-1" "key1" (by decide) (by decide)⟩

end PackerAmazon
